/-
Verification of the checkout / cart / review / user-role routes of the
e-commerce prototype server, as a shallow embedding in Lean 4.

Sources embedded:
  * POST /orders           (orders router: checkout algorithm)
  * PUT  /products/:id     (products router: admin product update)
  * PATCH /users/:id/role  (users router: role management)
  * POST /reviews/:productId (reviews router: create/update review)
  * POST /cart/add, PUT /cart/item/:id, DELETE /cart/item/:id,
    DELETE /cart/clear    (cart router)
  * POST /forgot-password  (auth router)

Modelling conventions: database rows are Lean structures, tables are lists,
prisma `findUnique`/`find` are `List.find?`, prisma `update`/`delete` are
`List.map`/`List.filter` keyed on ids, monetary values are ℚ, quantities
and stock are ℤ (JS numbers on integer-valued columns), ids are Nat.
Randomly generated values (reset tokens) and database-generated ids are
passed in as explicit parameters.
-/
import Mathlib

namespace Proto

/-! ## Data model -/

/-- A Product row: id, name, description, unit price, stock, image, category. -/
structure Product where
  id : Nat
  name : String
  description : String
  price : ℚ
  stock : ℤ
  imageUrl : String
  categoryId : Option Nat
  deriving Repr, DecidableEq

/-- A CartItem row: belongs to a cart, references a product, has a quantity. -/
structure CartItem where
  id : Nat
  productId : Nat
  quantity : ℤ
  deriving Repr, DecidableEq

/-- A Cart row together with its items (`include: { items: true }`). -/
structure Cart where
  id : Nat
  userId : Nat
  items : List CartItem
  deriving Repr, DecidableEq

/-- Order status enumeration; prisma default is PENDING. -/
inductive OrderStatus where
  | PENDING | PROCESSING | SHIPPED | DELIVERED | CANCELLED
  deriving Repr, DecidableEq

/-- An OrderItem row: product reference, quantity, unit price captured at
purchase time. -/
structure OrderItem where
  productId : Nat
  quantity : ℤ
  price : ℚ
  deriving Repr, DecidableEq

/-- An Order row with its items. -/
structure Order where
  userId : Nat
  total : ℚ
  address : String
  city : String
  zipCode : String
  country : String
  status : OrderStatus
  items : List OrderItem
  deriving Repr, DecidableEq

/-- The slice of the database the checkout and product routes touch. -/
structure DB where
  products : List Product
  carts : List Cart
  orders : List Order
  deriving Repr, DecidableEq

/-! ## Checkout (POST /orders) -/

/-- Shipping fields from the request body. -/
structure Shipping where
  address : String
  city : String
  zipCode : String
  country : String
  deriving Repr, DecidableEq

/-- Errors the checkout handler can return. -/
inductive CheckoutError where
  /-- Status 400, `Cart is empty` (no cart row, or a cart with zero items). -/
  | emptyCart
  /-- Status 400, `Insufficient stock for <name>. Available: <a>, Requested: <r>`. -/
  | insufficientStock (name : String) (available requested : ℤ)
  /-- Status 500 path: a cart item whose product row is missing (cannot happen
  under referential integrity; kept for a total model of the join). -/
  | internalError
  deriving Repr, DecidableEq

/-- The lookup `prisma.product.findUnique` by id over the products table. -/
def findProduct (ps : List Product) (pid : Nat) : Option Product :=
  ps.find? (fun p => p.id == pid)

/-- The lookup `prisma.cart.findUnique` by userId. -/
def findCart (cs : List Cart) (uid : Nat) : Option Cart :=
  cs.find? (fun c => c.userId == uid)

/-- The `include: { items: { include: { product: true } } }` join: pair each
cart item with its product row. -/
def loadItems (ps : List Product) : List CartItem →
    Option (List (CartItem × Product))
  | [] => some []
  | it :: its =>
    match findProduct ps it.productId, loadItems ps its with
    | some p, some rest => some ((it, p) :: rest)
    | _, _ => none

/-- The stock-validation loop: the first cart line whose product has fewer
units than requested. -/
def firstShortage (loaded : List (CartItem × Product)) :
    Option (CartItem × Product) :=
  loaded.find? (fun x => x.2.stock < x.1.quantity)

/-- The total computation `cart.items.reduce((sum, item) => sum + item.product.price * item.quantity, 0)`. -/
def cartTotal (loaded : List (CartItem × Product)) : ℚ :=
  loaded.foldl (fun sum x => sum + x.2.price * x.1.quantity) 0

/-- The nested create of order items: one OrderItem per cart line, price fixed to the product price loaded with the cart. -/
def mkOrderItems (loaded : List (CartItem × Product)) : List OrderItem :=
  loaded.map (fun x => { productId := x.1.productId, quantity := x.1.quantity,
                         price := x.2.price })

/-- The stock write `prisma.product.update` with `stock: decrement qty`:
an unconditional decrement of the stock column, with no guard and no
failure path. -/
def decrementStock (ps : List Product) (pid : Nat) (qty : ℤ) : List Product :=
  ps.map (fun p => if p.id == pid then { p with stock := p.stock - qty } else p)

/-- The decrement loop of the checkout handler, one product per cart line. -/
def decrementAll (ps : List Product) (loaded : List (CartItem × Product)) :
    List Product :=
  loaded.foldl (fun acc x => decrementStock acc x.1.productId x.1.quantity) ps

/-- The cart clearing `prisma.cartItem.deleteMany` by cartId: empty the items
of the cart with the given id. -/
def clearCartItems (cs : List Cart) (cartId : Nat) : List Cart :=
  cs.map (fun c => if c.id == cartId then { c with items := [] } else c)

/-- The `prisma.order.create` record: status PENDING, total from the loaded
cart, one OrderItem per cart line at the snapshot price. -/
def mkOrder (uid : Nat) (ship : Shipping) (loaded : List (CartItem × Product)) :
    Order :=
  { userId := uid, total := cartTotal loaded,
    address := ship.address, city := ship.city,
    zipCode := ship.zipCode, country := ship.country,
    status := .PENDING, items := mkOrderItems loaded }

/-- The POST /orders handler: load cart, guard empty cart, validate stock,
compute total, create order + items with snapshot prices, decrement stock,
clear cart. Returns the created order (or the error) and the new state. -/
def checkout (db : DB) (uid : Nat) (ship : Shipping) :
    Except CheckoutError Order × DB :=
  match findCart db.carts uid with
  | none => (.error .emptyCart, db)
  | some cart =>
    if cart.items = [] then (.error .emptyCart, db)
    else
      match loadItems db.products cart.items with
      | none => (.error .internalError, db)
      | some loaded =>
        match firstShortage loaded with
        | some x => (.error (.insufficientStock x.2.name x.2.stock x.1.quantity), db)
        | none =>
          (.ok (mkOrder uid ship loaded),
           { products := decrementAll db.products loaded,
             carts := clearCartItems db.carts cart.id,
             orders := db.orders ++ [mkOrder uid ship loaded] })

/-! ## Product update (PUT /products/:id, admin variant with stock) -/

/-- Request body of PUT /products/:id. A `stock` of `none` models the field
being absent (`undefined`), in which case the column is not written;
`categoryId` is written unconditionally (`categoryId || null`). -/
structure ProductUpdate where
  name : String
  description : String
  price : ℚ
  stock : Option ℤ
  imageUrl : String
  categoryId : Option Nat
  deriving Repr, DecidableEq

/-- Application of the update body to one product row. -/
def applyProductUpdate (u : ProductUpdate) (p : Product) : Product :=
  { p with name := u.name, description := u.description, price := u.price,
           stock := match u.stock with | some s => s | none => p.stock,
           imageUrl := u.imageUrl, categoryId := u.categoryId }

/-- The PUT /products/:id handler's write: update the product row with the
given id; every other table is untouched. -/
def updateProduct (db : DB) (pid : Nat) (u : ProductUpdate) : DB :=
  { db with products :=
      db.products.map (fun p => if p.id == pid then applyProductUpdate u p else p) }

/-! ## Role management (PATCH /users/:id/role) -/

/-- User roles: USER, ADMIN, SUPERADMIN. -/
inductive Role where
  | USER | ADMIN | SUPERADMIN
  deriving Repr, DecidableEq

/-- A User row (the fields the role route reads and writes). -/
structure User where
  id : Nat
  role : Role
  deriving Repr, DecidableEq

/-- Errors of the role-management handler. -/
inductive RoleError where
  /-- Status 401: missing user-id header. -/
  | unauthorized
  /-- Status 403: requester missing or not SUPERADMIN. -/
  | forbidden
  /-- Status 400: role not one of USER, ADMIN, SUPERADMIN. -/
  | invalidRole
  /-- Status 500: `prisma.user.update` threw (target id not found). -/
  | updateFailed
  deriving Repr, DecidableEq

/-- Parse of the requested role string against the allow-list
`['USER', 'ADMIN', 'SUPERADMIN'].includes(role)`. -/
def roleOfString (s : String) : Option Role :=
  if s = "USER" then some .USER
  else if s = "ADMIN" then some .ADMIN
  else if s = "SUPERADMIN" then some .SUPERADMIN
  else none

/-- The lookup `prisma.user.findUnique` by id. -/
def findUser (us : List User) (uid : Nat) : Option User :=
  us.find? (fun u => u.id == uid)

/-- The PATCH /users/:id/role handler: require a requester, require the
requester to be SUPERADMIN, validate the role string, then update the target
user's role. Returns the updated user and the new users table. -/
def updateUserRole (us : List User) (requesterId : Option Nat) (targetId : Nat)
    (roleStr : String) : Except RoleError (User × List User) :=
  match requesterId with
  | none => .error .unauthorized
  | some rid =>
    match findUser us rid with
    | none => .error .forbidden
    | some requester =>
      if requester.role ≠ .SUPERADMIN then .error .forbidden
      else
        match roleOfString roleStr with
        | none => .error .invalidRole
        | some newRole =>
          match findUser us targetId with
          | none => .error .updateFailed
          | some target =>
            .ok ({ target with role := newRole },
                 us.map (fun u => if u.id == targetId then { u with role := newRole } else u))

/-! ## Reviews (POST /reviews/:productId) -/

/-- A Review row. -/
structure Review where
  id : Nat
  userId : Nat
  productId : Nat
  rating : ℤ
  comment : Option String
  deriving Repr, DecidableEq

/-- Errors of the create-review handler. -/
inductive ReviewError where
  /-- Status 400: rating falsy, below 1 or above 5. -/
  | badRating
  deriving Repr, DecidableEq

/-- The lookup `prisma.review.findUnique` on the (userId, productId) unique
key. -/
def findReview (rs : List Review) (uid pid : Nat) : Option Review :=
  rs.find? (fun r => r.userId == uid && r.productId == pid)

/-- The POST /reviews/:productId handler: validate the rating, then either
update the existing review of this (user, product) pair in place, or create
a new one (`newId` models the database-generated id). Returns the saved
review and the new reviews table. -/
def createReview (rs : List Review) (uid pid : Nat) (rating : ℤ)
    (comment : Option String) (newId : Nat) :
    Except ReviewError (Review × List Review) :=
  if rating = 0 ∨ rating < 1 ∨ rating > 5 then .error .badRating
  else
    match findReview rs uid pid with
    | some existing =>
      let updated : Review := { existing with rating := rating, comment := comment }
      .ok (updated, rs.map (fun r => if r.id == existing.id then
                                       { r with rating := rating, comment := comment }
                                     else r))
    | none =>
      let created : Review :=
        { id := newId, userId := uid, productId := pid, rating := rating,
          comment := comment }
      .ok (created, rs ++ [created])

/-! ## Cart routes (POST /cart/add, PUT /cart/item/:id, DELETE /cart/item/:id,
DELETE /cart/clear) -/

/-- The POST /cart/add handler's writes: get or create the caller's cart
(`newCartId` models the generated id of a lazily created cart, `newItemId`
the generated id of a new cart item); if a cart item for the product exists,
increment its quantity by the given amount, otherwise insert a new item with
that quantity. No validation is applied to `qty`. -/
def addItem (cs : List Cart) (uid : Nat) (pid : Nat) (qty : ℤ)
    (newCartId newItemId : Nat) : List Cart :=
  match findCart cs uid with
  | none => cs ++ [{ id := newCartId, userId := uid,
                     items := [{ id := newItemId, productId := pid, quantity := qty }] }]
  | some cart =>
    match cart.items.find? (fun it => it.productId == pid) with
    | some existing =>
      cs.map (fun c => if c.id == cart.id then
                { c with items := c.items.map (fun it =>
                    if it.id == existing.id then
                      { it with quantity := it.quantity + qty }
                    else it) }
              else c)
    | none =>
      cs.map (fun c => if c.id == cart.id then
                { c with items := c.items ++
                    [{ id := newItemId, productId := pid, quantity := qty }] }
              else c)

/-- The PUT /cart/item/:id handler's writes: delete the item when the given
quantity is below 1, otherwise overwrite its quantity. -/
def setQuantity (cs : List Cart) (itemId : Nat) (qty : ℤ) : List Cart :=
  if qty < 1 then
    cs.map (fun c => { c with items := c.items.filter (fun it => it.id ≠ itemId) })
  else
    cs.map (fun c => { c with items := c.items.map (fun it =>
      if it.id == itemId then { it with quantity := qty } else it) })

/-- The DELETE /cart/item/:id handler's write: unconditional delete by id. -/
def removeItem (cs : List Cart) (itemId : Nat) : List Cart :=
  cs.map (fun c => { c with items := c.items.filter (fun it => it.id ≠ itemId) })

/-- The DELETE /cart/clear handler's write: delete all items of the caller's
cart, a no-op when the user has no cart. -/
def clearCart (cs : List Cart) (uid : Nat) : List Cart :=
  match findCart cs uid with
  | none => cs
  | some cart => clearCartItems cs cart.id

/-- The invariant of claim C9: every stored CartItem has quantity at least 1. -/
def cartQuantitiesPositive (cs : List Cart) : Prop :=
  ∀ c ∈ cs, ∀ it ∈ c.items, 1 ≤ it.quantity

instance : DecidablePred cartQuantitiesPositive := fun cs =>
  inferInstanceAs (Decidable (∀ c ∈ cs, ∀ it ∈ c.items, 1 ≤ it.quantity))

/-! ## Forgot password (POST /forgot-password) -/

/-- The fields of a User row the forgot-password route reads and writes. -/
structure AuthUser where
  id : Nat
  email : String
  resetToken : Option String
  resetTokenExpiry : Option ℤ
  deriving Repr, DecidableEq

/-- The lookup `prisma.user.findUnique` by email. -/
def findUserByEmail (us : List AuthUser) (email : String) : Option AuthUser :=
  us.find? (fun u => u.email == email)

/-- The POST /forgot-password handler: look the user up by email; when absent,
answer with the generic message and change nothing; when present, store a
reset token with a one-hour expiry (`token` models the random token, `now`
the current time in milliseconds) and answer with the same generic message.
Returns the new users table and the response message. -/
def forgotPassword (us : List AuthUser) (email : String) (token : String)
    (now : ℤ) : List AuthUser × String :=
  match findUserByEmail us email with
  | none => (us, "If an account exists, a reset link has been sent.")
  | some u =>
    (us.map (fun v => if v.id == u.id then
       { v with resetToken := some token, resetTokenExpiry := some (now + 3600000) }
     else v),
     "If an account exists, a reset link has been sent.")

/-! ## Concrete states used by closed theorems -/

/-- A one-product catalogue with a single unit in stock, for the decrement
counterexample. -/
def psOneUnit : List Product :=
  [{ id := 1, name := "Widget", description := "", price := 5, stock := 1,
     imageUrl := "", categoryId := none }]

/-- A users table holding a single SUPERADMIN, for the self-role-change
evaluation. -/
def usersSuper : List User := [{ id := 1, role := .SUPERADMIN }]

/-- A reviews table holding one review (user 10, product 20, rating 3), for
the duplicate-review counterexample. -/
def reviewsOne : List Review :=
  [{ id := 1, userId := 10, productId := 20, rating := 3, comment := none }]

/-- A single empty cart owned by user 7, for the zero-quantity add
counterexample. -/
def cartsEmptyOne : List Cart := [{ id := 1, userId := 7, items := [] }]

/-! ## Helper lemmas -/

/-- Folding additions of mapped values equals the initial value plus the sum
of the mapped list. -/
theorem foldl_add_eq_sum {α : Type} (f : α → ℚ) (l : List α) (a : ℚ) :
    l.foldl (fun s x => s + f x) a = a + (l.map f).sum := by
  induction l generalizing a with
  | nil => simp
  | cons x xs ih => simp [ih, add_assoc]

/-- The checkout total is the sum of snapshot price times quantity over the
loaded cart lines. -/
theorem cartTotal_eq_sum (loaded : List (CartItem × Product)) :
    cartTotal loaded = (loaded.map (fun x => x.2.price * (x.1.quantity : ℚ))).sum := by
  simpa using foldl_add_eq_sum (fun x => x.2.price * (x.1.quantity : ℚ)) loaded 0

/-- Per-line price-times-quantity of the created order items coincides with
the snapshot values of the loaded cart lines. -/
theorem mkOrderItems_price_mul (loaded : List (CartItem × Product)) :
    (mkOrderItems loaded).map (fun oi => oi.price * (oi.quantity : ℚ))
      = loaded.map (fun x => x.2.price * (x.1.quantity : ℚ)) := by
  simp only [mkOrderItems, List.map_map]
  exact List.map_congr_left fun x _ => rfl

/-- A found product's id matches the requested one. -/
theorem findProduct_id (ps : List Product) (pid : Nat) (p : Product)
    (h : findProduct ps pid = some p) : p.id = pid := by
  have := List.find?_some h
  simpa using this

/-- A found product is a member of the table. -/
theorem findProduct_mem (ps : List Product) (pid : Nat) (p : Product)
    (h : findProduct ps pid = some p) : p ∈ ps :=
  List.mem_of_find?_eq_some h

/-- With duplicate-free product ids, looking a member's id up returns that
member. -/
theorem findProduct_self (ps : List Product) (p : Product)
    (hids : (ps.map Product.id).Nodup) (hp : p ∈ ps) :
    findProduct ps p.id = some p := by
  induction ps with
  | nil => cases hp
  | cons q qs ih =>
    rcases List.mem_cons.mp hp with h | h
    · subst h
      simp [findProduct]
    · have hne : q.id ≠ p.id := by
        intro he
        exact (List.nodup_cons.mp hids).1 (he ▸ List.mem_map_of_mem Product.id h)
      have : findProduct qs p.id = some p := ih (List.nodup_cons.mp hids).2 h
      simpa [findProduct, List.find?_cons, hne] using this

/-- The join keeps the cart items, in order. -/
theorem loadItems_fst (ps : List Product) (its : List CartItem)
    (loaded : List (CartItem × Product)) (h : loadItems ps its = some loaded) :
    loaded.map Prod.fst = its := by
  induction its generalizing loaded with
  | nil =>
    simp only [loadItems, Option.some.injEq] at h
    simp [← h]
  | cons it its ih =>
    rw [loadItems] at h
    cases hf : findProduct ps it.productId with
    | none => simp [hf] at h
    | some p =>
      cases hr : loadItems ps its with
      | none => simp [hf, hr] at h
      | some rest =>
        simp only [hf, hr, Option.some.injEq] at h
        subst h
        simpa using ih rest hr

/-- Each loaded pair's product is the looked-up row of its cart item. -/
theorem loadItems_snd (ps : List Product) (its : List CartItem)
    (loaded : List (CartItem × Product)) (h : loadItems ps its = some loaded) :
    ∀ x ∈ loaded, findProduct ps x.1.productId = some x.2 := by
  induction its generalizing loaded with
  | nil =>
    simp only [loadItems, Option.some.injEq] at h
    simp [← h]
  | cons it its ih =>
    rw [loadItems] at h
    cases hf : findProduct ps it.productId with
    | none => simp [hf] at h
    | some p =>
      cases hr : loadItems ps its with
      | none => simp [hf, hr] at h
      | some rest =>
        simp only [hf, hr, Option.some.injEq] at h
        subst h
        intro y hy
        rcases List.mem_cons.mp hy with h | h
        · subst h; simpa using hf
        · exact ih rest hr y h

/-- The quantity the decrement loop subtracts from a given product id: the
sum of the quantities of the cart lines referencing it. -/
def lineQty (loaded : List (CartItem × Product)) (pid : Nat) : ℤ :=
  ((loaded.filter (fun x => x.1.productId == pid)).map (fun x => x.1.quantity)).sum

/-- No cart line references the id: nothing is subtracted. -/
theorem lineQty_eq_zero (loaded : List (CartItem × Product)) (pid : Nat)
    (h : ∀ x ∈ loaded, x.1.productId ≠ pid) : lineQty loaded pid = 0 := by
  unfold lineQty
  rw [List.filter_eq_nil_iff.mpr]
  · rfl
  · intro x hx
    simpa using h x hx

/-- With duplicate-free product ids on the cart lines, the id of a line is
referenced by that line alone, so exactly its quantity is subtracted. -/
theorem lineQty_eq_of_mem (loaded : List (CartItem × Product))
    (x : CartItem × Product)
    (hnd : (loaded.map (fun y => y.1.productId)).Nodup) (hx : x ∈ loaded) :
    lineQty loaded x.1.productId = x.1.quantity := by
  induction loaded with
  | nil => cases hx
  | cons y l ih =>
    rcases List.mem_cons.mp hx with h | h
    · subst h
      have hrest : ∀ z ∈ l, z.1.productId ≠ x.1.productId := by
        intro z hz he
        apply (List.nodup_cons.mp hnd).1
        show x.1.productId ∈ List.map (fun y => y.1.productId) l
        rw [← he]
        exact List.mem_map_of_mem (fun y => y.1.productId) hz
      have h0 := lineQty_eq_zero l x.1.productId hrest
      unfold lineQty at h0 ⊢
      simp [h0]
    · have hne : (y.1.productId == x.1.productId) = false := by
        simp only [beq_eq_false_iff_ne, ne_eq]
        intro he
        apply (List.nodup_cons.mp hnd).1
        show y.1.productId ∈ List.map (fun y => y.1.productId) l
        rw [he]
        exact List.mem_map_of_mem (fun y => y.1.productId) h
      have := ih (List.nodup_cons.mp hnd).2 h
      unfold lineQty at this ⊢
      simpa [List.filter_cons, hne] using this

/-- The decrement loop, as a single map over the products table: every row
loses the total quantity its id is referenced with. -/
theorem decrementAll_eq_map (ps : List Product)
    (loaded : List (CartItem × Product)) :
    decrementAll ps loaded
      = ps.map (fun p => { p with stock := p.stock - lineQty loaded p.id }) := by
  induction loaded generalizing ps with
  | nil =>
    show ps = _
    have : ∀ p : Product, ({ p with stock := p.stock - lineQty [] p.id }) = p := by
      intro p
      simp [lineQty]
    simp [this]
  | cons x l ih =>
    show decrementAll (decrementStock ps x.1.productId x.1.quantity) l = _
    rw [ih, decrementStock, List.map_map]
    apply List.map_congr_left
    intro p _
    by_cases h : p.id = x.1.productId
    · have hb : (p.id == x.1.productId) = true := by simpa using h
      have hq : lineQty (x :: l) p.id = x.1.quantity + lineQty l p.id := by
        unfold lineQty
        have hc : (x.1.productId == p.id) = true := by simpa using h.symm
        simp [List.filter_cons, hc]
      simp [Function.comp, hb, hq, sub_sub]
    · have hb : (p.id == x.1.productId) = false := by simpa using h
      have hq : lineQty (x :: l) p.id = lineQty l p.id := by
        unfold lineQty
        have hc : (x.1.productId == p.id) = false := by
          simp only [beq_eq_false_iff_ne, ne_eq]
          exact fun he => h he.symm
        simp [List.filter_cons, hc]
      simp [Function.comp, hb, hq]

/-- Search commutes with a map that preserves the predicate. -/
theorem find?_map_pred {α : Type} (f : α → α) (p : α → Bool) (l : List α)
    (hf : ∀ a, p (f a) = p a) : (l.map f).find? p = (l.find? p).map f := by
  induction l with
  | nil => rfl
  | cons a l ih =>
    by_cases h : p a
    · simp [List.find?_cons, hf, h]
    · simp only [Bool.not_eq_true] at h
      simp [List.find?_cons, hf, h, ih]

/-- Product search commutes with an id-preserving rewrite of the table. -/
theorem findProduct_map (ps : List Product) (f : Product → Product)
    (hf : ∀ p, (f p).id = p.id) (pid : Nat) :
    findProduct (ps.map f) pid = (findProduct ps pid).map f := by
  unfold findProduct
  apply find?_map_pred
  intro p
  rw [hf]

/-- Cart search commutes with an owner-preserving rewrite of the table. -/
theorem findCart_map (cs : List Cart) (f : Cart → Cart)
    (hf : ∀ c, (f c).userId = c.userId) (uid : Nat) :
    findCart (cs.map f) uid = (findCart cs uid).map f := by
  unfold findCart
  apply find?_map_pred
  intro c
  rw [hf]

/-- Product ids of the loaded lines are the product ids of the cart items. -/
theorem loaded_pid_nodup (ps : List Product) (its : List CartItem)
    (loaded : List (CartItem × Product)) (h : loadItems ps its = some loaded)
    (hnd : (its.map CartItem.productId).Nodup) :
    (loaded.map (fun y => y.1.productId)).Nodup := by
  have hfst := loadItems_fst ps its loaded h
  have h2 : (loaded.map fun y => y.1.productId) = its.map CartItem.productId := by
    rw [← hfst, List.map_map]
    rfl
  rw [h2]
  exact hnd

/-- Every run of the checkout handler either returns an error and leaves the
state untouched, or passes the guards and performs the success writes. -/
theorem checkout_shape (db : DB) (uid : Nat) (ship : Shipping) :
    (∃ e, checkout db uid ship = (.error e, db)) ∨
    (∃ cart loaded,
      findCart db.carts uid = some cart ∧ cart.items ≠ [] ∧
      loadItems db.products cart.items = some loaded ∧
      firstShortage loaded = none ∧
      checkout db uid ship =
        (.ok (mkOrder uid ship loaded),
         { products := decrementAll db.products loaded,
           carts := clearCartItems db.carts cart.id,
           orders := db.orders ++ [mkOrder uid ship loaded] })) := by
  unfold checkout
  cases hc : findCart db.carts uid with
  | none => exact Or.inl ⟨.emptyCart, rfl⟩
  | some cart =>
    dsimp only
    by_cases hi : cart.items = []
    · exact Or.inl ⟨.emptyCart, by simp [hi]⟩
    · rw [if_neg hi]
      cases hl : loadItems db.products cart.items with
      | none => exact Or.inl ⟨.internalError, rfl⟩
      | some loaded =>
        dsimp only
        cases hs : firstShortage loaded with
        | some x => exact Or.inl ⟨.insufficientStock x.2.name x.2.stock x.1.quantity, rfl⟩
        | none => exact Or.inr ⟨cart, loaded, rfl, hi, hl, hs, rfl⟩

/-! ## Concrete checkout scenarios (spec section 8 examples) -/

/-- Product P1: price 10, stock 5. -/
def prodA : Product :=
  { id := 1, name := "P1", description := "d1", price := 10, stock := 5,
    imageUrl := "", categoryId := none }

/-- Product P2: price 5, stock 1. -/
def prodB : Product :=
  { id := 2, name := "P2", description := "d2", price := 5, stock := 1,
    imageUrl := "", categoryId := none }

/-- Product P2 with zero stock. -/
def prodBEmpty : Product := { prodB with stock := 0 }

/-- Cart line: two units of P1. -/
def itemA : CartItem := { id := 11, productId := 1, quantity := 2 }

/-- Cart line: one unit of P2. -/
def itemB : CartItem := { id := 12, productId := 2, quantity := 1 }

/-- Cart of user 7 holding both lines. -/
def cartW : Cart := { id := 3, userId := 7, items := [itemA, itemB] }

/-- Shipping details of the example request. -/
def shipW : Shipping := { address := "a", city := "c", zipCode := "z", country := "k" }

/-- Database of the successful example checkout. -/
def dbOk : DB := { products := [prodA, prodB], carts := [cartW], orders := [] }

/-- Loaded cart lines of the successful example checkout. -/
def loadedOk : List (CartItem × Product) := [(itemA, prodA), (itemB, prodB)]

/-- The order the successful example checkout creates. -/
def ordOk : Order := mkOrder 7 shipW loadedOk

/-- Database state after the successful example checkout. -/
def dbOkPost : DB :=
  { products := [{ prodA with stock := 3 }, { prodB with stock := 0 }],
    carts := [{ cartW with items := [] }], orders := [ordOk] }

/-- Database of the failing example checkout (P2 out of stock). -/
def dbShort : DB := { products := [prodA, prodBEmpty], carts := [cartW], orders := [] }

/-- Loaded cart lines of the failing example checkout. -/
def loadedShort : List (CartItem × Product) := [(itemA, prodA), (itemB, prodBEmpty)]

/-- Database whose only cart (user 7) is empty. -/
def dbEmptyCart : DB :=
  { products := [prodA], carts := [{ id := 4, userId := 7, items := [] }], orders := [] }

/-! ## Claim theorems -/

/-- C1: for every checkout that succeeds, the created order's total equals
the sum over all cart items of the snapshot unit price (the product price
loaded with the cart) times the item's quantity, each created OrderItem's
price equals that snapshot price, and consequently the total also equals the
sum of OrderItem price times quantity. -/
theorem checkout_total_is_snapshot_sum
    (db : DB) (uid : Nat) (ship : Shipping) (order : Order) (db' : DB)
    (cart : Cart) (loaded : List (CartItem × Product))
    (hc : findCart db.carts uid = some cart)
    (hl : loadItems db.products cart.items = some loaded)
    (h : checkout db uid ship = (.ok order, db')) :
    order.total = (loaded.map (fun x => x.2.price * (x.1.quantity : ℚ))).sum ∧
    order.items = mkOrderItems loaded ∧
    order.total = (order.items.map (fun oi => oi.price * (oi.quantity : ℚ))).sum := by
  rcases checkout_shape db uid ship with ⟨e, he⟩ | ⟨cart', loaded', hc', hi', hl', hs', heq⟩
  · rw [he] at h
    simp at h
  · rw [heq] at h
    rw [hc] at hc'
    injection hc' with hcc
    subst hcc
    rw [hl] at hl'
    injection hl' with hll
    subst hll
    have ho : mkOrder uid ship loaded = order := by
      have := congrArg Prod.fst h
      simpa using this
    subst ho
    refine ⟨cartTotal_eq_sum loaded, rfl, ?_⟩
    show cartTotal loaded = _
    rw [cartTotal_eq_sum]
    show _ = ((mkOrderItems loaded).map fun oi => oi.price * (oi.quantity : ℚ)).sum
    rw [mkOrderItems_price_mul]

/-- C1 witness: the successful example checkout instantiates the theorem. -/
theorem checkout_total_is_snapshot_sum_witness :
    ordOk.total = (loadedOk.map (fun x => x.2.price * (x.1.quantity : ℚ))).sum ∧
    ordOk.items = mkOrderItems loadedOk ∧
    ordOk.total = (ordOk.items.map (fun oi => oi.price * (oi.quantity : ℚ))).sum :=
  checkout_total_is_snapshot_sum dbOk 7 shipW ordOk dbOkPost cartW loadedOk
    rfl rfl rfl

/-- C2: when some cart line exceeds the available stock, checkout returns
the insufficient-stock error naming the first failing line's product with
its available and requested quantities (that line indeed falls short), no
order is created, and the whole state — stock counters included — is left
unchanged. -/
theorem checkout_insufficient_stock_all_or_nothing
    (db : DB) (uid : Nat) (ship : Shipping) (cart : Cart)
    (loaded : List (CartItem × Product)) (x : CartItem × Product)
    (hc : findCart db.carts uid = some cart)
    (hne : cart.items ≠ [])
    (hl : loadItems db.products cart.items = some loaded)
    (hf : firstShortage loaded = some x) :
    x.2.stock < x.1.quantity ∧
    checkout db uid ship
      = (.error (.insufficientStock x.2.name x.2.stock x.1.quantity), db) := by
  constructor
  · have := List.find?_some hf
    simpa using this
  · simp [checkout, hc, hne, hl, hf]

/-- C2 witness: the failing example checkout (P2 out of stock) instantiates
the theorem; P2 is the first failing line. -/
theorem checkout_insufficient_stock_all_or_nothing_witness :
    prodBEmpty.stock < itemB.quantity ∧
    checkout dbShort 7 shipW
      = (.error (.insufficientStock prodBEmpty.name prodBEmpty.stock itemB.quantity),
         dbShort) :=
  checkout_insufficient_stock_all_or_nothing dbShort 7 shipW cartW loadedShort
    (itemB, prodBEmpty) rfl (by decide) rfl (by decide)

/-- C5: a checkout attempted with a nonexistent cart or a cart with zero
items returns the empty-cart error and leaves the whole state unchanged: no
order, stock or cart is touched. -/
theorem checkout_empty_cart_no_effect (db : DB) (uid : Nat) (ship : Shipping)
    (h : findCart db.carts uid = none ∨
         ∃ c, findCart db.carts uid = some c ∧ c.items = []) :
    checkout db uid ship = (.error .emptyCart, db) := by
  rcases h with h | ⟨c, hc, hi⟩
  · simp [checkout, h]
  · simp [checkout, hc, hi]

/-- C5 witness: user 7's cart exists and is empty; the checkout fails with
the empty-cart error and returns the state unchanged. -/
theorem checkout_empty_cart_no_effect_witness :
    checkout dbEmptyCart 7 shipW = (.error .emptyCart, dbEmptyCart) :=
  checkout_empty_cart_no_effect dbEmptyCart 7 shipW
    (Or.inr ⟨{ id := 4, userId := 7, items := [] }, rfl, rfl⟩)

/-- C6: the order created by a successful checkout is in the resulting order
table, and a later product update (PUT /products/:id) leaves the order table
— hence every OrderItem's captured price and every order's total — exactly
unchanged, whatever new price is written. -/
theorem product_update_preserves_orders
    (db : DB) (uid : Nat) (ship : Shipping) (order : Order) (db' : DB)
    (h : checkout db uid ship = (.ok order, db')) :
    order ∈ db'.orders ∧
    ∀ pid u, (updateProduct db' pid u).orders = db'.orders := by
  refine ⟨?_, fun pid u => rfl⟩
  rcases checkout_shape db uid ship with ⟨e, he⟩ | ⟨cart, loaded, hc, hi, hl, hs, heq⟩
  · rw [he] at h
    simp at h
  · rw [heq] at h
    have h1 : mkOrder uid ship loaded = order := by
      have := congrArg Prod.fst h
      simpa using this
    have h2 := congrArg Prod.snd h
    dsimp only at h2
    rw [← h1, ← h2]
    simp

/-- C6 witness: the example order is in the post-state and any product
update keeps the order table intact. -/
theorem product_update_preserves_orders_witness :
    ordOk ∈ dbOkPost.orders ∧
    ∀ pid u, (updateProduct dbOkPost pid u).orders = dbOkPost.orders :=
  product_update_preserves_orders dbOk 7 shipW ordOk dbOkPost rfl

/-- C3 counterexample: the decrement operation embedded from the handler's
stock write is unconditional — applied to the one-unit catalogue with a
requested quantity of 2 it does not fail with any insufficient-stock error
(it cannot fail at all) and leaves stock -1, below zero. This refutes the
claim that the decrement fails whenever stock is smaller than the requested
quantity rather than reducing stock below zero. -/
theorem decrementStock_unguarded_goes_negative :
    (findProduct (decrementStock psOneUnit 1 2) 1).map Product.stock = some (-1) ∧
    ¬ (∀ p ∈ decrementStock psOneUnit 1 2, 0 ≤ p.stock) := by
  constructor
  · decide
  · decide

/-- C3 amended: in the sequential checkout path stock indeed never becomes
negative — with duplicate-free product ids and duplicate-free product
references per cart (as the schema's unique constraints guarantee), any run
of the checkout handler on a state with nonnegative stock leaves every
product's stock nonnegative, because the pre-validation aborts before any
write when stock is short; the decrement operation itself, however, has no
guard (see the counterexample). -/
theorem checkout_preserves_stock_nonneg
    (db : DB) (uid : Nat) (ship : Shipping) (res : Except CheckoutError Order)
    (db' : DB)
    (hids : (db.products.map Product.id).Nodup)
    (hcarts : ∀ c ∈ db.carts, (c.items.map CartItem.productId).Nodup)
    (hpos : ∀ p ∈ db.products, 0 ≤ p.stock)
    (h : checkout db uid ship = (res, db')) :
    ∀ p ∈ db'.products, 0 ≤ p.stock := by
  rcases checkout_shape db uid ship with ⟨e, he⟩ | ⟨cart, loaded, hc, hi, hl, hs, heq⟩
  · rw [he] at h
    have h2 := congrArg Prod.snd h
    dsimp only at h2
    rw [← h2]
    exact hpos
  · rw [heq] at h
    have h2 := congrArg Prod.snd h
    dsimp only at h2
    rw [← h2]
    intro p' hp'
    rw [decrementAll_eq_map] at hp'
    obtain ⟨p, hp, rfl⟩ := List.mem_map.mp hp'
    dsimp only
    by_cases hex : ∃ x ∈ loaded, x.1.productId = p.id
    · obtain ⟨x, hxl, hxe⟩ := hex
      have hnd := loaded_pid_nodup db.products cart.items loaded hl
        (hcarts cart (List.mem_of_find?_eq_some hc))
      have hq : lineQty loaded p.id = x.1.quantity := by
        rw [← hxe]
        exact lineQty_eq_of_mem loaded x hnd hxl
      have hfp : findProduct db.products x.1.productId = some x.2 :=
        loadItems_snd _ _ _ hl x hxl
      have hself : findProduct db.products p.id = some p :=
        findProduct_self _ _ hids hp
      rw [hxe, hself] at hfp
      injection hfp with hfp
      have hns : ¬ (x.2.stock < x.1.quantity) := by
        have := List.find?_eq_none.mp hs x hxl
        simpa using this
      rw [hq]
      have h0 := hpos p hp
      rw [hfp] at h0 ⊢
      omega
    · push_neg at hex
      rw [lineQty_eq_zero loaded p.id hex]
      have := hpos p hp
      omega

/-- C3 amended witness: after the successful example checkout both product
rows of the post-state still have nonnegative stock, by the theorem. -/
theorem checkout_preserves_stock_nonneg_witness :
    0 ≤ Product.stock { prodA with stock := 3 } ∧
    0 ≤ Product.stock { prodB with stock := 0 } :=
  ⟨checkout_preserves_stock_nonneg dbOk 7 shipW (.ok ordOk) dbOkPost
      (by decide) (by decide) (by decide) rfl _ (by decide),
   checkout_preserves_stock_nonneg dbOk 7 shipW (.ok ordOk) dbOkPost
      (by decide) (by decide) (by decide) rfl _ (by decide)⟩

/-- C4: for every checkout that succeeds, each checked-out product's stock
in the resulting state equals its pre-checkout stock (the snapshot loaded
with the cart) minus the quantity ordered, and the caller's cart has no
items left. -/
theorem checkout_success_stock_and_cart
    (db : DB) (uid : Nat) (ship : Shipping) (order : Order) (db' : DB)
    (cart : Cart) (loaded : List (CartItem × Product))
    (hnd : (cart.items.map CartItem.productId).Nodup)
    (hc : findCart db.carts uid = some cart)
    (hl : loadItems db.products cart.items = some loaded)
    (h : checkout db uid ship = (.ok order, db')) :
    (∀ x ∈ loaded, (findProduct db'.products x.1.productId).map Product.stock
        = some (x.2.stock - x.1.quantity)) ∧
    (findCart db'.carts uid).map Cart.items = some [] := by
  rcases checkout_shape db uid ship with ⟨e, he⟩ | ⟨cart', loaded', hc', hi', hl', hs', heq⟩
  · rw [he] at h
    simp at h
  · rw [heq] at h
    rw [hc] at hc'
    injection hc' with hcc
    subst hcc
    rw [hl] at hl'
    injection hl' with hll
    subst hll
    have h2 := congrArg Prod.snd h
    dsimp only at h2
    rw [← h2]
    constructor
    · intro x hxl
      dsimp only
      rw [decrementAll_eq_map,
          findProduct_map db.products
            (fun p => { p with stock := p.stock - lineQty loaded p.id })
            (fun p => rfl)]
      have hfp : findProduct db.products x.1.productId = some x.2 :=
        loadItems_snd _ _ _ hl x hxl
      rw [hfp]
      have hid : x.2.id = x.1.productId := findProduct_id _ _ _ hfp
      have hloadnd : (loaded.map (fun y => y.1.productId)).Nodup :=
        loaded_pid_nodup db.products cart.items loaded hl hnd
      have hq : lineQty loaded x.2.id = x.1.quantity := by
        rw [hid]
        exact lineQty_eq_of_mem loaded x hloadnd hxl
      simp [hq]
    · dsimp only [clearCartItems]
      rw [findCart_map _ _ (fun c => by
        by_cases hcc : (c.id == cart.id) = true <;> simp [hcc])]
      rw [hc]
      simp

/-- C4 witness: after the successful example checkout, P1's stock is 3 (was
5, two ordered), P2's stock is 0 (was 1, one ordered), and user 7's cart is
empty. -/
theorem checkout_success_stock_and_cart_witness :
    (∀ x ∈ loadedOk, (findProduct dbOkPost.products x.1.productId).map Product.stock
        = some (x.2.stock - x.1.quantity)) ∧
    (findCart dbOkPost.carts 7).map Cart.items = some [] :=
  checkout_success_stock_and_cart dbOk 7 shipW ordOk dbOkPost cartW loadedOk
    (by decide) rfl rfl rfl

/-- C7: evaluation of the role-management handler at the failing input — a
SUPERADMIN (user 1) targeting their own account with role USER. The handler
has no self-change guard: the request succeeds and the caller's role is
changed from SUPERADMIN to USER, although the repository's documentation
states a user cannot change their own role. -/
theorem superadmin_self_role_change_succeeds :
    findUser usersSuper 1 = some { id := 1, role := .SUPERADMIN } ∧
    updateUserRole usersSuper (some 1) 1 "USER"
      = .ok ({ id := 1, role := .USER }, [{ id := 1, role := .USER }]) := by
  constructor
  · rfl
  · rfl

/-- C8 counterexample: the (user 10, product 20) pair already has a review
with rating 3, yet submitting a new review with rating 5 for that pair does
not fail with any conflict error — it succeeds and overwrites the existing
review's rating in place. -/
theorem duplicate_review_updated_counterexample :
    findReview reviewsOne 10 20
      = some { id := 1, userId := 10, productId := 20, rating := 3, comment := none } ∧
    createReview reviewsOne 10 20 5 none 99
      = .ok ({ id := 1, userId := 10, productId := 20, rating := 5, comment := none },
             [{ id := 1, userId := 10, productId := 20, rating := 5, comment := none }]) := by
  constructor
  · rfl
  · rfl

/-- C8 amended: submitting a review for a (user, product) pair that already
has one does not fail — the handler updates the existing review in place
with the new rating and comment, adds no row, and keeps the table's
(user, product) pairs unchanged, so at most one review per user per product
continues to hold. -/
theorem createReview_existing_updates_in_place
    (rs : List Review) (uid pid : Nat) (rating : ℤ) (comment : Option String)
    (newId : Nat) (r : Review)
    (hex : findReview rs uid pid = some r)
    (h1 : 1 ≤ rating) (h5 : rating ≤ 5) :
    ∃ rs', createReview rs uid pid rating comment newId
        = .ok ({ r with rating := rating, comment := comment }, rs') ∧
      rs'.map (fun v => (v.userId, v.productId))
        = rs.map (fun v => (v.userId, v.productId)) ∧
      rs'.length = rs.length := by
  have hg : ¬ (rating = 0 ∨ rating < 1 ∨ rating > 5) := by omega
  refine ⟨rs.map (fun v => if v.id == r.id then
            { v with rating := rating, comment := comment } else v), ?_, ?_, ?_⟩
  · simp only [createReview, if_neg hg, hex]
  · rw [List.map_map]
    apply List.map_congr_left
    intro v _
    by_cases hv : (v.id == r.id) = true <;> simp [Function.comp, hv]
  · simp

/-- C8 amended witness: the duplicate submission of the counterexample state
instantiates the theorem. -/
theorem createReview_existing_updates_in_place_witness :
    ∃ rs', createReview reviewsOne 10 20 5 none 99
        = .ok ({ id := 1, userId := 10, productId := 20, rating := 5,
                 comment := none }, rs') ∧
      rs'.map (fun v => (v.userId, v.productId))
        = reviewsOne.map (fun v => (v.userId, v.productId)) ∧
      rs'.length = reviewsOne.length :=
  createReview_existing_updates_in_place reviewsOne 10 20 5 none 99
    { id := 1, userId := 10, productId := 20, rating := 3, comment := none }
    rfl (by decide) (by decide)

/-- C9 counterexample: the add-to-cart handler applies no validation to the
requested quantity — adding product 5 with quantity 0 to user 7's (empty)
cart stores a CartItem with quantity 0, breaking the quantity-at-least-1
invariant that held beforehand. -/
theorem addItem_zero_quantity_breaks_invariant :
    cartQuantitiesPositive cartsEmptyOne ∧
    ¬ cartQuantitiesPositive (addItem cartsEmptyOne 7 5 0 1 99) := by
  constructor
  · decide
  · decide

/-- Lifting a per-cart bound through a rewrite of the cart table. -/
theorem cartQuantitiesPositive_map (cs : List Cart) (f : Cart → Cart)
    (h : ∀ c ∈ cs, ∀ it ∈ (f c).items, 1 ≤ it.quantity) :
    cartQuantitiesPositive (cs.map f) := by
  intro c hc it hit
  obtain ⟨c0, hc0, rfl⟩ := List.mem_map.mp hc
  exact h c0 hc0 it hit

/-- C9 amended: on a state where every stored CartItem has quantity at least
1, the quantity-update, remove and clear operations preserve that invariant
unconditionally, and add-to-cart preserves it exactly when the requested
quantity is at least 1 (the handler itself validates nothing — see the
counterexample for quantity 0). -/
theorem cart_ops_preserve_positive_quantity
    (cs : List Cart) (hinv : cartQuantitiesPositive cs) :
    (∀ itemId qty, cartQuantitiesPositive (setQuantity cs itemId qty)) ∧
    (∀ itemId, cartQuantitiesPositive (removeItem cs itemId)) ∧
    (∀ uid, cartQuantitiesPositive (clearCart cs uid)) ∧
    (∀ uid pid qty newCartId newItemId, 1 ≤ qty →
      cartQuantitiesPositive (addItem cs uid pid qty newCartId newItemId)) := by
  refine ⟨?_, ?_, ?_, ?_⟩
  · intro itemId qty
    unfold setQuantity
    by_cases hq : qty < 1
    · rw [if_pos hq]
      apply cartQuantitiesPositive_map
      intro c hc it hit
      exact hinv c hc it (List.mem_of_mem_filter hit)
    · rw [if_neg hq]
      apply cartQuantitiesPositive_map
      intro c hc it hit
      obtain ⟨it0, hit0, rfl⟩ := List.mem_map.mp hit
      by_cases hid : (it0.id == itemId) = true
      · simp only [hid, if_true]
        omega
      · simp only [hid, Bool.false_eq_true, if_false]
        exact hinv c hc it0 hit0
  · intro itemId
    unfold removeItem
    apply cartQuantitiesPositive_map
    intro c hc it hit
    exact hinv c hc it (List.mem_of_mem_filter hit)
  · intro uid
    unfold clearCart
    cases hf : findCart cs uid with
    | none => exact hinv
    | some cart =>
      unfold clearCartItems
      apply cartQuantitiesPositive_map
      intro c hc it hit
      by_cases hcc : (c.id == cart.id) = true
      · rw [if_pos hcc] at hit
        simp at hit
      · rw [if_neg (by simpa using hcc)] at hit
        exact hinv c hc it hit
  · intro uid pid qty newCartId newItemId hq
    unfold addItem
    cases hf : findCart cs uid with
    | none =>
      intro c hc it hit
      rcases List.mem_append.mp hc with hcl | hcr
      · exact hinv c hcl it hit
      · have : c = { id := newCartId, userId := uid,
                     items := [{ id := newItemId, productId := pid, quantity := qty }] } := by
          simpa using hcr
        subst this
        have : it = { id := newItemId, productId := pid, quantity := qty } := by
          simpa using hit
        subst this
        exact hq
    | some cart =>
      dsimp only
      cases he : cart.items.find? (fun it => it.productId == pid) with
      | some existing =>
        dsimp only
        apply cartQuantitiesPositive_map
        intro c hc it hit
        by_cases hcc : (c.id == cart.id) = true
        · rw [if_pos hcc] at hit
          simp only [List.mem_map] at hit
          obtain ⟨it0, hit0, rfl⟩ := hit
          by_cases hii : (it0.id == existing.id) = true
          · simp only [hii, if_true]
            have := hinv c hc it0 hit0
            omega
          · simp only [hii, Bool.false_eq_true, if_false]
            exact hinv c hc it0 hit0
        · rw [if_neg (by simpa using hcc)] at hit
          exact hinv c hc it hit
      | none =>
        dsimp only
        apply cartQuantitiesPositive_map
        intro c hc it hit
        by_cases hcc : (c.id == cart.id) = true
        · rw [if_pos hcc] at hit
          rcases List.mem_append.mp hit with hil | hir
          · exact hinv c hc it hil
          · have : it = { id := newItemId, productId := pid, quantity := qty } := by
              simpa using hir
            subst this
            exact hq
        · rw [if_neg (by simpa using hcc)] at hit
          exact hinv c hc it hit

/-- C9 amended witness: the single-empty-cart state instantiates the
preservation theorem. -/
theorem cart_ops_preserve_positive_quantity_witness :
    (∀ itemId qty, cartQuantitiesPositive (setQuantity cartsEmptyOne itemId qty)) ∧
    (∀ itemId, cartQuantitiesPositive (removeItem cartsEmptyOne itemId)) ∧
    (∀ uid, cartQuantitiesPositive (clearCart cartsEmptyOne uid)) ∧
    (∀ uid pid qty newCartId newItemId, 1 ≤ qty →
      cartQuantitiesPositive (addItem cartsEmptyOne uid pid qty newCartId newItemId)) :=
  cart_ops_preserve_positive_quantity cartsEmptyOne (by decide)

/-- C10: the forgot-password handler's success response does not depend on
account existence — for an email with a matching user and an email without
one, the message returned to the caller is the same. -/
theorem forgotPassword_message_independent_of_existence
    (us : List AuthUser) (e1 e2 tok1 tok2 : String) (now1 now2 : ℤ)
    (h1 : (findUserByEmail us e1).isSome = true)
    (h2 : findUserByEmail us e2 = none) :
    (forgotPassword us e1 tok1 now1).2 = (forgotPassword us e2 tok2 now2).2 := by
  rcases hf : findUserByEmail us e1 with _ | u <;>
    simp [forgotPassword, hf, h2]

/-- C10 witness: a one-user table, the user's email versus an unknown email. -/
theorem forgotPassword_message_independent_of_existence_witness :
    (forgotPassword
        [{ id := 1, email := "a@x", resetToken := none, resetTokenExpiry := none }]
        "a@x" "tok1" 0).2
      = (forgotPassword
          [{ id := 1, email := "a@x", resetToken := none, resetTokenExpiry := none }]
          "b@x" "tok2" 5).2 :=
  forgotPassword_message_independent_of_existence
    [{ id := 1, email := "a@x", resetToken := none, resetTokenExpiry := none }]
    "a@x" "b@x" "tok1" "tok2" 0 5 (by decide) (by decide)

end Proto
